import Mathlib

/-!
Verification development for the `mcp-context-ai-agent` repository.

The definitions below are a shallow embedding of the Python sources under
`core-agent/src/`: the context engine (`context_engine/engine.py` and
`context_engine/entities.py`), the vector store wrapper
(`memory/vector_store.py`), the alert triage (`alert_system/triage.py`) and
the alert manager (`alert_system/alert_manager.py`).  Machine floats of the
source are modelled as rationals, Python dicts keyed by strings as
association lists with replace-or-append insertion, and calls into external
collaborators (the sentence-transformer encoder, the chromadb collection,
the scikit-learn classifier) as injected functions returning `Except`.
-/

namespace McpAgent

/-- From `context_engine/entities.py`: `class ContextType(Enum)`. -/
inductive ContextType where
  | meeting
  | project
  | task
  | communication
  | health
deriving DecidableEq, Repr

/-- From `context_engine/entities.py`: `ContextType.<CASE>.value`. -/
def ContextType.value : ContextType → String
  | .meeting => "meeting"
  | .project => "project"
  | .task => "task"
  | .communication => "communication"
  | .health => "health"

/-- From `context_engine/entities.py`: `@dataclass class ContextEntity`.
`content: Dict[str, Any]` is modelled as an association list of string
fields, `timestamp: datetime` as a `Nat`, and `importance: float` as a
rational. -/
structure ContextEntity where
  id : String
  type : String
  content : List (String × String)
  timestamp : Nat
  importance : ℚ
  relationships : List String
deriving DecidableEq, Repr

/-- Embedding vector produced by the injected encoder
(`SentenceTransformer.encode` in `memory/vector_store.py`, an external
collaborator). -/
abbrev Embedding := List ℚ

/-- State of the chromadb collection `context_entities` of
`memory/vector_store.py`, abstracted to the stored `id -> document` pairs
(the metadata of `collection.add` is carried by the document's entity and is
not inspected by any claim). -/
abbrev VectorIndex := List (String × String)

/-- From `memory/vector_store.py`: `VectorMemory._entity_to_text`, which
returns the Python f-string `f"{entity.type}: {entity.content}"`.  The
rendering of the content dict is kept abstract but injective enough for the
claims: no claim inspects the exact text. -/
def entity_to_text (e : ContextEntity) : String :=
  e.type ++ ": " ++ String.intercalate ", " (e.content.map (fun p => p.1 ++ ": " ++ p.2))

/-- From `memory/vector_store.py`: `VectorMemory.store_entity`.  The body is
a single `try`/`except` around the encoder call and the `collection.add`
call; on any exception the error is logged and swallowed, leaving the index
unchanged.  `encode` models `self.encoder.encode` and `add` models
`self.collection.add`, both external collaborators that may fail. -/
def store_entity (encode : String → Except String Embedding)
    (add : VectorIndex → String → Embedding → String → Except String VectorIndex)
    (idx : VectorIndex) (e : ContextEntity) : VectorIndex :=
  match encode (entity_to_text e) with
  | .error _ => idx
  | .ok emb =>
    match add idx e.id emb (entity_to_text e) with
    | .error _ => idx
    | .ok idx2 => idx2

/-- Python dict assignment `self.active_contexts[entity.id] = entity`:
replace the existing binding for the key in place, otherwise append a new
binding at the end (insertion-order semantics of a Python dict). -/
def dictInsert (m : List (String × ContextEntity)) (k : String) (v : ContextEntity) :
    List (String × ContextEntity) :=
  match m with
  | [] => [(k, v)]
  | p :: rest => if p.1 == k then (k, v) :: rest else p :: dictInsert rest k v

/-- `entity.id in self.active_contexts` on the dict model. -/
def hasKey (m : List (String × ContextEntity)) (k : String) : Bool :=
  m.any (fun p => p.1 == k)

/-- From `context_engine/engine.py`: the mutable state of `ContextEngine`
(`self.vector_db`'s collection, `self.active_contexts`,
`self.context_history`). -/
structure ContextEngine where
  index : VectorIndex
  active_contexts : List (String × ContextEntity)
  context_history : List ContextEntity
deriving Repr

/-- The body of the `for entity in entities:` loop of
`ContextEngine.update_context` (engine.py lines 26-32): store in the vector
db, upsert into `active_contexts`, append to `context_history`
(`_check_basic_alerts` only logs and is elided). -/
def ingest_entity (encode : String → Except String Embedding)
    (add : VectorIndex → String → Embedding → String → Except String VectorIndex)
    (s : ContextEngine) (e : ContextEntity) : ContextEngine :=
  { index := store_entity encode add s.index e
    active_contexts := dictInsert s.active_contexts e.id e
    context_history := s.context_history ++ [e] }

/-- From `context_engine/engine.py`: `ContextEngine.update_context`,
applied to the list of entities produced by `_extract_entities` (extraction
is dispatch plus record mapping and is quantified over here: the claims
range over arbitrary extracted entities). -/
def update_context (encode : String → Except String Embedding)
    (add : VectorIndex → String → Embedding → String → Except String VectorIndex)
    (s : ContextEngine) (entities : List ContextEntity) : ContextEngine :=
  entities.foldl (ingest_entity encode add) s

/-- `'needle' in hay` of Python on our string model: `splitOn` yields more
than one piece exactly when the separator occurs. -/
def strContains (hay needle : String) : Bool :=
  2 ≤ (hay.splitOn needle).length

/-- From `context_engine/engine.py`: the keyword list of
`_calculate_meeting_importance`. -/
def important_keywords : List String :=
  ["review", "important", "urgent", "executive", "client"]

/-- The fields of a raw calendar event dict inspected by
`_calculate_meeting_importance`: `len(event.get('attendees', []))`,
`event.get('summary', '')` and the truthiness of
`event.get('hangoutLink')`. -/
structure CalendarEvent where
  attendees : Nat
  summary : String
  hangoutLink : Bool

/-- From `context_engine/engine.py`: `_calculate_meeting_importance`,
including the unreachable `elif len(attendees) > 10` branch, translated
float-for-rational. -/
def calculate_meeting_importance (event : CalendarEvent) : ℚ :=
  let importance : ℚ := 0.5
  let importance :=
    if 5 < event.attendees then importance + 0.2
    else if 10 < event.attendees then importance + 0.3
    else importance
  let title := event.summary.toLower
  let importance :=
    if important_keywords.any (fun k => strContains title k) then importance + 0.2
    else importance
  let importance := if event.hangoutLink then importance + 0.1 else importance
  min importance 1

/-! ### `alert_system/triage.py` -/

namespace Triage

/-- From `alert_system/triage.py`: `class AlertPriority(Enum)`. -/
inductive AlertPriority where
  | low
  | medium
  | high
  | critical
deriving DecidableEq, Repr

/-- From `alert_system/triage.py`: `class AlertType(Enum)`. -/
inductive AlertType where
  | meeting_reminder
  | project_consistency
  | health_advice
  | communication_pattern
deriving DecidableEq, Repr

/-- From `alert_system/triage.py`: `@dataclass class Alert`.  The
`context: Dict[str, Any]` is modelled as an association list of numeric
fields, matching the two uses `len(alert.context)` and
`alert.context.get('urgency', 0)` in `_extract_features`. -/
structure Alert where
  id : String
  type : AlertType
  priority : AlertPriority
  message : String
  context : List (String × ℚ)
  confidence : ℚ
  suggested_actions : List String
deriving DecidableEq, Repr

/-- `alert.context.get('urgency', 0)`: Python dict lookup with default. -/
def dictGet (m : List (String × ℚ)) (k : String) (d : ℚ) : ℚ :=
  match m.find? (fun p => p.1 == k) with
  | some p => p.2
  | none => d

/-- From `alert_system/triage.py`: a user feedback entry appended by
`record_feedback` (`pd.Timestamp.now()` modelled as a `Nat`). -/
structure FeedbackRecord where
  alert : Alert
  was_useful : Bool
  user_feedback : String
  timestamp : Nat
deriving DecidableEq, Repr

/-- From `alert_system/triage.py`: the mutable state of `AlertTriage`
(`alert_history`, `feedback_history`, `is_trained`; the
`RandomForestClassifier` itself is an external collaborator injected at
evaluation time). -/
structure AlertTriage where
  alert_history : List Alert
  feedback_history : List FeedbackRecord
  is_trained : Bool
deriving DecidableEq, Repr

/-- `AlertTriage.__init__`: empty histories, untrained. -/
def initial_triage : AlertTriage :=
  { alert_history := [], feedback_history := [], is_trained := false }

/-- From `alert_system/triage.py`: `_priority_to_numeric`. -/
def priority_to_numeric : AlertPriority → ℚ
  | .low => 0
  | .medium => 1
  | .high => 2
  | .critical => 3

/-- From `alert_system/triage.py`: `_extract_features`. -/
def extract_features (a : Alert) : List ℚ :=
  [a.confidence, priority_to_numeric a.priority, (a.context.length : ℚ),
    dictGet a.context "urgency" 0]

/-- Modelled from the spec: the three predicate methods
`_is_working_hours`, `_has_high_context_relevance` and
`_is_user_available` are referenced by `_rule_based_triage` but defined
nowhere in the repository; per the spec they are (a) a business-hours
test, (c) a detector-supplied relevance test and (d) an injected user
availability signal, so they are taken here as injected boolean predicates
on alerts. -/
structure TriagePredicates where
  is_working_hours : Alert → Bool
  has_high_context_relevance : Alert → Bool
  is_user_available : Alert → Bool

/-- From `alert_system/triage.py`: `_rule_based_triage` — count the
satisfied rules of `base_rules` (the priority rule
`a.priority in [HIGH, CRITICAL]` is inline in the source) and deliver when
`score >= 2`. -/
def rule_based_triage (P : TriagePredicates) (a : Alert) : Bool :=
  let base_rules : List (Alert → Bool) :=
    [P.is_working_hours,
      fun al => al.priority == .high || al.priority == .critical,
      P.has_high_context_relevance,
      P.is_user_available]
  let score := base_rules.countP (fun rule => rule a)
  decide (2 ≤ score)

/-- From `alert_system/triage.py`: `evaluate_alert`.  `classify` models
`self.ml_model.predict([features])[0]`, an external collaborator that may
raise; the source wraps it in no handler, so its error propagates. -/
def evaluate_alert (P : TriagePredicates) (classify : List ℚ → Except String Nat)
    (t : AlertTriage) (a : Alert) : Except String Bool :=
  if !t.is_trained then
    Except.ok (rule_based_triage P a)
  else
    (classify (extract_features a)).map (fun prediction => prediction == 1)

/-- From `alert_system/triage.py`: `_retrain_model` — the guard
`len(self.feedback_history) < 50` returns early, otherwise the classifier
is fitted on the full feedback set and `is_trained` is set. -/
def retrain_model (t : AlertTriage) : AlertTriage :=
  if t.feedback_history.length < 50 then t
  else { t with is_trained := true }

/-- From `alert_system/triage.py`: `record_feedback` — append the record,
then retrain when `len(self.feedback_history) >= 100`. -/
def record_feedback (t : AlertTriage) (a : Alert) (was_useful : Bool)
    (user_feedback : String) (now : Nat) : AlertTriage :=
  let t1 := { t with feedback_history :=
    t.feedback_history ++ [⟨a, was_useful, user_feedback, now⟩] }
  if 100 ≤ t1.feedback_history.length then retrain_model t1 else t1

/-- One argument tuple of a `record_feedback` call. -/
structure FeedbackInput where
  alert : Alert
  was_useful : Bool
  note : String
  now : Nat
deriving DecidableEq, Repr

/-- A sequence of `record_feedback` calls. -/
def recordAll (t : AlertTriage) (l : List FeedbackInput) : AlertTriage :=
  l.foldl (fun t i => record_feedback t i.alert i.was_useful i.note i.now) t

end Triage

/-! ### `alert_system/alert_manager.py` -/

namespace Mgr

/-- From `alert_system/alert_manager.py`: `class AlertPriority(Enum)`. -/
inductive AlertPriority where
  | low
  | medium
  | high
  | critical
deriving DecidableEq, Repr

/-- From `alert_system/alert_manager.py`: `class AlertType(Enum)`. -/
inductive AlertType where
  | meeting_reminder
  | meeting_prep
  | schedule_conflict
  | follow_up
  | health
deriving DecidableEq, Repr

/-- From `alert_system/alert_manager.py`: `@dataclass class Alert`, with
the dataclass default `confidence: float = 0.8` and `timestamp: datetime`
as a `Nat`; `context: Dict[str, Any]` is a string association list. -/
structure Alert where
  id : String
  type : AlertType
  priority : AlertPriority
  title : String
  message : String
  context : List (String × String)
  timestamp : Nat
  suggested_actions : List String
  confidence : ℚ := 0.8
deriving DecidableEq, Repr

/-- One record returned by `VectorMemory.similarity_search`
(`memory/vector_store.py` lines 48-56): id, the stored metadata (its
`type` tag and the content title the manager reads back), the stored
document text and the distance. -/
structure RetrievedItem where
  id : String
  typ : String
  title : String
  document : String
  distance : ℚ
deriving DecidableEq, Repr

/-- From `alert_system/alert_manager.py`: the mutable state of
`AlertManager` (`self.alert_history`; `self.context_engine` is passed at
call sites). -/
structure AlertManager where
  alert_history : List Alert
deriving DecidableEq, Repr

/-- The MEETING_PREP alert built inside `_check_meeting_alerts` for the
`len(alerts)`-th accepted retrieval item. -/
def meeting_prep_alert (i : Nat) (item : RetrievedItem) (now : Nat) : Alert :=
  { id := "meeting_" ++ toString i
    type := .meeting_prep
    priority := .medium
    title := "Upcoming Meeting"
    message := "You have a meeting soon: " ++ item.title
    context := [("type", item.typ), ("title", item.title)]
    timestamp := now
    suggested_actions :=
      ["Review meeting agenda", "Prepare documents", "Join meeting room"] }

/-- The accumulation loop of `_check_meeting_alerts`: keep an item when
`metadata.get('type') == 'meeting'` and `'start_time' in content_str`, and
append a MEETING_PREP alert whose id carries the current `len(alerts)`. -/
def check_meeting_alerts_go (now : Nat) (items : List RetrievedItem)
    (alerts : List Alert) : List Alert :=
  match items with
  | [] => alerts
  | item :: rest =>
    if item.typ == "meeting" && strContains item.document "start_time" then
      check_meeting_alerts_go now rest (alerts ++ [meeting_prep_alert alerts.length item now])
    else
      check_meeting_alerts_go now rest alerts

/-- From `alert_system/alert_manager.py`: `_check_meeting_alerts`, applied
to the items returned by `get_relevant_context("meeting today", 10)`. -/
def check_meeting_alerts (items : List RetrievedItem) (now : Nat) : List Alert :=
  check_meeting_alerts_go now items []

/-- The hard-coded alert of `_check_schedule_conflicts`. -/
def conflict_alert (now : Nat) : Alert :=
  { id := "conflict_1"
    type := .schedule_conflict
    priority := .high
    title := "Potential Schedule Conflict"
    message := "You have back-to-back meetings from 2-4 PM today"
    context := [("time_range", "14:00-16:00")]
    timestamp := now
    suggested_actions :=
      ["Consider adding buffer time", "Prepare quick transition",
        "Inform attendees if needed"] }

/-- From `alert_system/alert_manager.py`: `_check_schedule_conflicts` —
the body ignores the context store and always returns the single sample
alert. -/
def check_schedule_conflicts (now : Nat) : List Alert :=
  [conflict_alert now]

/-- The hard-coded alert of `_check_follow_ups`. -/
def followup_alert (now : Nat) : Alert :=
  { id := "followup_1"
    type := .follow_up
    priority := .low
    title := "Follow-up Reminder"
    message := "Consider following up on yesterday's client meeting"
    context := [("meeting", "Client Review")]
    timestamp := now
    suggested_actions :=
      ["Send summary email", "Schedule follow-up meeting",
        "Update project tracker"] }

/-- From `alert_system/alert_manager.py`: `_check_follow_ups` — always the
single sample alert. -/
def check_follow_ups (now : Nat) : List Alert :=
  [followup_alert now]

/-- From `alert_system/alert_manager.py`: `check_for_alerts`.  The first
detector depends on `self.context_engine.get_relevant_context`, whose
vector-db backend is injected; `retrieved` is that call's outcome.  The
source wraps none of the detector calls in a handler, so a raising
retrieval propagates before the remaining detectors run and before
`alert_history` is extended. -/
def check_for_alertsE (retrieved : Except String (List RetrievedItem)) (now : Nat)
    (m : AlertManager) : Except String (List Alert × AlertManager) :=
  match retrieved with
  | .error e => .error e
  | .ok items =>
    let alerts := check_meeting_alerts items now ++ check_schedule_conflicts now
      ++ check_follow_ups now
    .ok (alerts, { alert_history := m.alert_history ++ alerts })

end Mgr

/-! ### Association-list lemmas for the active-contexts dict -/

theorem hasKey_dictInsert_self (m : List (String × ContextEntity)) (k : String)
    (v : ContextEntity) : hasKey (dictInsert m k v) k = true := by
  induction m with
  | nil => simp [dictInsert, hasKey]
  | cons p rest ih =>
    by_cases h : p.1 == k
    · simp [dictInsert, h, hasKey]
    · simp only [dictInsert, h, if_neg, Bool.false_eq_true, if_false, hasKey, List.any_cons]
      simp only [hasKey] at ih
      simp [ih]

theorem hasKey_dictInsert_of (m : List (String × ContextEntity)) (k k' : String)
    (v : ContextEntity) (h : hasKey m k' = true) :
    hasKey (dictInsert m k v) k' = true := by
  induction m with
  | nil => simp [hasKey] at h
  | cons p rest ih =>
    simp only [hasKey, List.any_cons, Bool.or_eq_true] at h
    by_cases hpk : p.1 == k
    · rcases h with h | h
      · have h1 : p.1 = k := by simpa using hpk
        have h2 : p.1 = k' := by simpa using h
        have h3 : k = k' := h1 ▸ h2
        subst h3
        exact hasKey_dictInsert_self (p :: rest) k v
      · simp [dictInsert, hpk, hasKey, h]
    · rcases h with h | h
      · simp [dictInsert, hpk, hasKey, h]
      · have := ih (by simpa [hasKey] using h)
        simp only [hasKey] at this
        simp [dictInsert, hpk, hasKey, this]

theorem mem_keys_dictInsert (m : List (String × ContextEntity)) (k : String)
    (v : ContextEntity) (x : String) (hx : x ∈ (dictInsert m k v).map Prod.fst) :
    x ∈ m.map Prod.fst ∨ x = k := by
  induction m with
  | nil => simp [dictInsert] at hx; simp [hx]
  | cons p rest ih =>
    by_cases hpk : p.1 == k
    · simp only [dictInsert, hpk, if_pos, List.map_cons, List.mem_cons] at hx
      have hp : p.1 = k := by simpa using hpk
      rcases hx with hx | hx
      · right; exact hx
      · left; simp [hx]
    · simp only [dictInsert, hpk, Bool.false_eq_true, if_false, List.map_cons,
        List.mem_cons] at hx
      rcases hx with hx | hx
      · left; simp [hx]
      · rcases ih hx with h | h
        · left; simp [h]
        · right; exact h

theorem nodup_keys_dictInsert (m : List (String × ContextEntity)) (k : String)
    (v : ContextEntity) (h : (m.map Prod.fst).Nodup) :
    ((dictInsert m k v).map Prod.fst).Nodup := by
  induction m with
  | nil => simp [dictInsert]
  | cons p rest ih =>
    simp only [List.map_cons, List.nodup_cons] at h
    by_cases hpk : p.1 == k
    · have hp : p.1 = k := by simpa using hpk
      simp only [dictInsert, hpk, if_pos, List.map_cons, List.nodup_cons]
      exact ⟨hp ▸ h.1, h.2⟩
    · simp only [dictInsert, hpk, Bool.false_eq_true, if_false, List.map_cons,
        List.nodup_cons]
      refine ⟨?_, ih h.2⟩
      intro hmem
      rcases mem_keys_dictInsert rest k v p.1 hmem with hc | hc
      · exact h.1 hc
      · exact hpk (by simpa using hc)

theorem filter_dictInsert (m : List (String × ContextEntity)) (k : String)
    (v : ContextEntity) (h : (m.map Prod.fst).Nodup) :
    (dictInsert m k v).filter (fun p => p.1 == k) = [(k, v)] := by
  induction m with
  | nil => simp [dictInsert]
  | cons p rest ih =>
    simp only [List.map_cons, List.nodup_cons] at h
    by_cases hpk : p.1 == k
    · have hp : p.1 = k := by simpa using hpk
      simp only [dictInsert, hpk, if_pos]
      have hrest : rest.filter (fun q => q.1 == k) = [] := by
        refine List.filter_eq_nil_iff.mpr ?_
        intro q hq hqk
        have hqk' : q.1 = k := by simpa using hqk
        exact h.1 (hp ▸ hqk' ▸ List.mem_map_of_mem Prod.fst hq)
      simp [List.filter_cons, hrest]
    · simp only [dictInsert, hpk, Bool.false_eq_true, if_false]
      rw [List.filter_cons]
      simp only [hpk, Bool.false_eq_true, if_false]
      exact ih h.2

/-! ### Behaviour of `update_context` -/

theorem update_context_history (encode : String → Except String Embedding)
    (add : VectorIndex → String → Embedding → String → Except String VectorIndex)
    (s : ContextEngine) (entities : List ContextEntity) :
    (update_context encode add s entities).context_history =
      s.context_history ++ entities := by
  induction entities generalizing s with
  | nil => simp [update_context]
  | cons e rest ih =>
    simp only [update_context, List.foldl_cons] at *
    rw [ih (ingest_entity encode add s e)]
    simp [ingest_entity]

theorem hasKey_update_context_of (encode : String → Except String Embedding)
    (add : VectorIndex → String → Embedding → String → Except String VectorIndex)
    (s : ContextEngine) (entities : List ContextEntity) (k : String)
    (h : hasKey s.active_contexts k = true) :
    hasKey (update_context encode add s entities).active_contexts k = true := by
  induction entities generalizing s with
  | nil => simpa [update_context] using h
  | cons e rest ih =>
    simp only [update_context, List.foldl_cons] at *
    exact ih (ingest_entity encode add s e)
      (hasKey_dictInsert_of s.active_contexts e.id k e h)

theorem hasKey_update_context_mem (encode : String → Except String Embedding)
    (add : VectorIndex → String → Embedding → String → Except String VectorIndex)
    (s : ContextEngine) (entities : List ContextEntity) (e : ContextEntity)
    (h : e ∈ entities) :
    hasKey (update_context encode add s entities).active_contexts e.id = true := by
  induction entities generalizing s with
  | nil => simp at h
  | cons e' rest ih =>
    simp only [update_context, List.foldl_cons]
    rcases List.mem_cons.mp h with h1 | h1
    · subst h1
      exact hasKey_update_context_of encode add (ingest_entity encode add s e) rest e.id
        (hasKey_dictInsert_self s.active_contexts e.id e)
    · exact ih (ingest_entity encode add s e') h1

/-! ### Lemmas about the triage feedback loop -/

namespace Triage

theorem record_feedback_length (t : AlertTriage) (a : Alert) (u : Bool) (n : String)
    (now : Nat) :
    (record_feedback t a u n now).feedback_history.length =
      t.feedback_history.length + 1 := by
  simp only [record_feedback, retrain_model]
  split
  · split <;> simp
  · simp

theorem record_feedback_trained (t : AlertTriage) (a : Alert) (u : Bool) (n : String)
    (now : Nat) :
    (record_feedback t a u n now).is_trained =
      (t.is_trained || decide (100 ≤ t.feedback_history.length + 1)) := by
  simp only [record_feedback, retrain_model, List.length_append, List.length_cons,
    List.length_nil]
  split <;> rename_i h1
  · split <;> rename_i h2
    · omega
    · simp only [decide_eq_true_eq] at *
      simp [h1]
  · simp only [not_le, decide_eq_true_eq] at *
    have : ¬ (100 ≤ t.feedback_history.length + 1) := by omega
    simp [this]

theorem recordAll_length (t : AlertTriage) (l : List FeedbackInput) :
    (recordAll t l).feedback_history.length =
      t.feedback_history.length + l.length := by
  induction l generalizing t with
  | nil => simp [recordAll]
  | cons i rest ih =>
    simp only [recordAll, List.foldl_cons, List.length_cons] at *
    rw [ih, record_feedback_length]
    omega

theorem recordAll_trained (t : AlertTriage) (l : List FeedbackInput) :
    (recordAll t l).is_trained = true ↔
      (t.is_trained = true ∨
        (1 ≤ l.length ∧ 100 ≤ t.feedback_history.length + l.length)) := by
  induction l generalizing t with
  | nil => simp [recordAll]
  | cons i rest ih =>
    simp only [recordAll, List.foldl_cons, List.length_cons] at *
    rw [ih]
    rw [record_feedback_trained, record_feedback_length]
    simp only [Bool.or_eq_true, decide_eq_true_eq]
    constructor
    · rintro ((h | h) | ⟨h1, h2⟩)
      · exact Or.inl h
      · exact Or.inr ⟨by omega, by omega⟩
      · exact Or.inr ⟨by omega, by omega⟩
    · rintro (h | ⟨h1, h2⟩)
      · exact Or.inl (Or.inl h)
      · by_cases hr : 1 ≤ rest.length
        · exact Or.inr ⟨hr, by omega⟩
        · have : rest.length = 0 := by omega
          exact Or.inl (Or.inr (by omega))

end Triage

/-! ### Lemmas about the alert manager detectors -/

namespace Mgr

theorem check_meeting_alerts_go_mem (now : Nat) (items : List RetrievedItem)
    (alerts : List Alert)
    (hacc : ∀ a ∈ alerts, a.type = AlertType.meeting_prep ∧ a.confidence = 0.8)
    (a : Alert) (ha : a ∈ check_meeting_alerts_go now items alerts) :
    a.type = AlertType.meeting_prep ∧ a.confidence = 0.8 := by
  induction items generalizing alerts with
  | nil => exact hacc a ha
  | cons item rest ih =>
    simp only [check_meeting_alerts_go] at ha
    split at ha
    · refine ih _ ?_ ha
      intro b hb
      rcases List.mem_append.mp hb with hb | hb
      · exact hacc b hb
      · simp only [List.mem_singleton] at hb
        subst hb
        exact ⟨rfl, rfl⟩
    · exact ih _ hacc ha

theorem check_meeting_alerts_mem (items : List RetrievedItem) (now : Nat)
    (a : Alert) (ha : a ∈ check_meeting_alerts items now) :
    a.type = AlertType.meeting_prep ∧ a.confidence = 0.8 :=
  check_meeting_alerts_go_mem now items [] (by simp) a ha

theorem check_meeting_alerts_filter_conflict (items : List RetrievedItem) (now : Nat) :
    (check_meeting_alerts items now).filter
      (fun a => a.type == AlertType.schedule_conflict) = [] := by
  refine List.filter_eq_nil_iff.mpr ?_
  intro a ha hc
  have := (check_meeting_alerts_mem items now a ha).1
  simp [this] at hc

theorem check_meeting_alerts_filter_followup (items : List RetrievedItem) (now : Nat) :
    (check_meeting_alerts items now).filter
      (fun a => a.type == AlertType.follow_up) = [] := by
  refine List.filter_eq_nil_iff.mpr ?_
  intro a ha hc
  have := (check_meeting_alerts_mem items now a ha).1
  simp [this] at hc

end Mgr

/-! ### Claims -/

/-- C1 (counterexample): `ContextEngine.update_context` contains no
eviction logic, so ingesting 1001 distinct entities into an empty engine
leaves 1001 entries in `context_history`, not the 1000 the claim
requires. -/
theorem C1_counterexample :
    ((update_context (fun _ => Except.ok ([] : Embedding))
        (fun idx _ _ _ => Except.ok idx) ⟨[], [], []⟩
        ((List.range 1001).map
          (fun i => ⟨toString i, "meeting", [], i, 0.7, []⟩))).context_history.length
      == 1000) = false := by
  rw [update_context_history]
  simp

/-- C1 (amended): the context history is an UNBOUNDED append log — every
ingest appends one entry and nothing is ever evicted, so after ingesting
1001 distinct entities the history holds all 1001 entries, while the
active-by-id map contains every ingested id. -/
theorem C1_unbounded_history (encode : String → Except String Embedding)
    (add : VectorIndex → String → Embedding → String → Except String VectorIndex)
    (s : ContextEngine) (entities : List ContextEntity) :
    (update_context encode add s entities).context_history =
      s.context_history ++ entities ∧
    ∀ e ∈ entities,
      hasKey (update_context encode add s entities).active_contexts e.id = true :=
  ⟨update_context_history encode add s entities,
    fun e he => hasKey_update_context_mem encode add s entities e he⟩

/-- C1 (witness): one concrete ingest, via `C1_unbounded_history`. -/
theorem C1_witness :
    (update_context (fun _ => Except.ok ([] : Embedding))
        (fun idx _ _ _ => Except.ok idx) ⟨[], [], []⟩
        [⟨"a", "meeting", [], 0, 0.7, []⟩]).context_history =
      [⟨"a", "meeting", [], 0, 0.7, []⟩] ∧
    hasKey (update_context (fun _ => Except.ok ([] : Embedding))
        (fun idx _ _ _ => Except.ok idx) ⟨[], [], []⟩
        [⟨"a", "meeting", [], 0, 0.7, []⟩]).active_contexts "a" = true := by
  have h := C1_unbounded_history (fun _ => Except.ok ([] : Embedding))
    (fun idx _ _ _ => Except.ok idx) ⟨[], [], []⟩
    [⟨"a", "meeting", [], 0, 0.7, []⟩]
  exact ⟨by simpa using h.1,
    by simpa using h.2 ⟨"a", "meeting", [], 0, 0.7, []⟩ (by simp)⟩

/-- C2 (counterexample): after exactly 50 `record_feedback` calls from the
initial untrained state the triage is still untrained — the transition the
claim places at 50 records has not fired, because `record_feedback` only
calls `_retrain_model` once the feedback count reaches 100. -/
theorem C2_counterexample :
    (Triage.recordAll Triage.initial_triage
      (List.replicate 50
        ⟨⟨"a1", .meeting_reminder, .high, "", [], 0.8, []⟩, true, "", 0⟩)).is_trained
      = false := by
  cases hX : (Triage.recordAll Triage.initial_triage
      (List.replicate 50
        ⟨⟨"a1", .meeting_reminder, .high, "", [], 0.8, []⟩, true, "", 0⟩)).is_trained with
  | false => rfl
  | true =>
    have h := (Triage.recordAll_trained Triage.initial_triage
      (List.replicate 50
        ⟨⟨"a1", .meeting_reminder, .high, "", [], 0.8, []⟩, true, "", 0⟩)).mp hX
    simp [Triage.initial_triage] at h

/-- C2 (amended): for every sequence of `record_feedback` calls starting
from the initial untrained state, the triage becomes LEARNED (`is_trained`)
exactly when the accumulated feedback count reaches 100 records — never
before — and once trained it never returns to the rule-based state. -/
theorem C2_trained_at_100 :
    (∀ l : List Triage.FeedbackInput,
      (Triage.recordAll Triage.initial_triage l).is_trained = true ↔
        100 ≤ l.length) ∧
    (∀ (t : Triage.AlertTriage) (l : List Triage.FeedbackInput),
      t.is_trained = true → (Triage.recordAll t l).is_trained = true) := by
  constructor
  · intro l
    rw [Triage.recordAll_trained]
    simp only [Triage.initial_triage, List.length_nil, Nat.zero_add]
    constructor
    · rintro (h | ⟨h1, h2⟩)
      · simp at h
      · simpa using h2
    · intro h
      exact Or.inr ⟨by omega, by simpa using h⟩
  · intro t l h
    exact (Triage.recordAll_trained t l).mpr (Or.inl h)

/-- C2 (witness): monotonicity of `is_trained` at a concrete trained
state, via `C2_trained_at_100`. -/
theorem C2_witness :
    (Triage.recordAll ⟨[], [], true⟩ []).is_trained = true :=
  C2_trained_at_100.2 ⟨[], [], true⟩ [] rfl

/-- C3: while untrained, `evaluate_alert` delivers an alert iff at least 2
of the 4 rule predicates (working hours, priority HIGH/CRITICAL, high
context relevance, user available) hold; in particular a 3-of-4 alert is
delivered and an alert with only priority=HIGH true is suppressed
(predicate methods modelled from the spec as injected booleans). -/
theorem C3_rule_based_two_of_four :
    (∀ (P : Triage.TriagePredicates) (classify : List ℚ → Except String Nat)
        (t : Triage.AlertTriage) (a : Triage.Alert), t.is_trained = false →
      (Triage.evaluate_alert P classify t a = Except.ok true ↔
        2 ≤ ([P.is_working_hours a,
               a.priority == .high || a.priority == .critical,
               P.has_high_context_relevance a,
               P.is_user_available a].countP id))) ∧
    Triage.evaluate_alert ⟨fun _ => true, fun _ => true, fun _ => false⟩
      (fun _ => Except.ok 0) Triage.initial_triage
      ⟨"a1", .meeting_reminder, .high, "", [], 0.8, []⟩ = Except.ok true ∧
    Triage.evaluate_alert ⟨fun _ => false, fun _ => false, fun _ => false⟩
      (fun _ => Except.ok 0) Triage.initial_triage
      ⟨"a1", .meeting_reminder, .high, "", [], 0.8, []⟩ = Except.ok false := by
  refine ⟨?_, rfl, rfl⟩
  intro P classify t a h
  have hval : Triage.evaluate_alert P classify t a =
      Except.ok (Triage.rule_based_triage P a) := by
    simp [Triage.evaluate_alert, h]
  rw [hval, Except.ok.injEq]
  simp [Triage.rule_based_triage, List.countP_cons, List.countP_nil]

/-- C3 (witness): a 3-of-4 alert at LOW priority is delivered, via
`C3_rule_based_two_of_four`. -/
theorem C3_witness :
    Triage.evaluate_alert ⟨fun _ => true, fun _ => true, fun _ => true⟩
      (fun _ => Except.ok 0) Triage.initial_triage
      ⟨"a2", .meeting_reminder, .low, "", [], 0.8, []⟩ = Except.ok true :=
  (C3_rule_based_two_of_four.1 ⟨fun _ => true, fun _ => true, fun _ => true⟩
    (fun _ => Except.ok 0) Triage.initial_triage
    ⟨"a2", .meeting_reminder, .low, "", [], 0.8, []⟩ rfl).mpr (by decide)

/-- C4 (code evaluated at the failing input): for the store holding only
the two meetings [14:00-15:00) and [15:20-16:00) — a 20-minute gap, larger
than the 15-minute buffer, so the claim demands zero conflict alerts — the
generation pass still emits exactly one SCHEDULE_CONFLICT alert:
`_check_schedule_conflicts` never reads the meetings and unconditionally
returns the hard-coded `conflict_1` sample alert. -/
theorem C4_conflict_detector_stub :
    ((Mgr.check_meeting_alerts
        [⟨"calendar_1", "meeting", "Morning Sync",
            "meeting: title: Morning Sync, start_time: 2024-01-15T14:00:00Z, end_time: 2024-01-15T15:00:00Z, source: calendar", 0.1⟩,
          ⟨"calendar_2", "meeting", "Late Review",
            "meeting: title: Late Review, start_time: 2024-01-15T15:20:00Z, end_time: 2024-01-15T16:00:00Z, source: calendar", 0.2⟩] 0
        ++ Mgr.check_schedule_conflicts 0 ++ Mgr.check_follow_ups 0).filter
      (fun a => a.type == Mgr.AlertType.schedule_conflict))
      = [Mgr.conflict_alert 0] := by
  rw [List.filter_append, List.filter_append, Mgr.check_meeting_alerts_filter_conflict]
  simp [Mgr.check_schedule_conflicts, Mgr.check_follow_ups, Mgr.conflict_alert,
    Mgr.followup_alert]

/-- C5: ingesting the same id twice leaves exactly one active-map entry for
that id, carrying the latest entity, while the history grows by one per
ingestion. -/
theorem C5_idempotent_upsert (encode : String → Except String Embedding)
    (add : VectorIndex → String → Embedding → String → Except String VectorIndex)
    (s : ContextEngine) (e e' : ContextEntity)
    (hnd : (s.active_contexts.map Prod.fst).Nodup) (hid : e'.id = e.id) :
    (update_context encode add s [e, e']).active_contexts.filter
        (fun p => p.1 == e.id) = [(e.id, e')] ∧
    (update_context encode add s [e, e']).context_history.length =
      s.context_history.length + 2 := by
  constructor
  · show (dictInsert (dictInsert s.active_contexts e.id e) e'.id e').filter
      (fun p => p.1 == e.id) = [(e.id, e')]
    rw [hid]
    exact filter_dictInsert _ e.id e' (nodup_keys_dictInsert _ e.id e hnd)
  · rw [update_context_history]
    simp

/-- C5 (witness): a concrete double ingest of id `"a"`, via
`C5_idempotent_upsert`. -/
theorem C5_witness :
    (update_context (fun _ => Except.ok ([] : Embedding))
        (fun idx _ _ _ => Except.ok idx) ⟨[], [], []⟩
        [⟨"a", "meeting", [("v", "1")], 0, 0.7, []⟩,
          ⟨"a", "meeting", [("v", "2")], 1, 0.7, []⟩]).active_contexts.filter
      (fun p => p.1 == "a") = [("a", ⟨"a", "meeting", [("v", "2")], 1, 0.7, []⟩)] ∧
    (update_context (fun _ => Except.ok ([] : Embedding))
        (fun idx _ _ _ => Except.ok idx) ⟨[], [], []⟩
        [⟨"a", "meeting", [("v", "1")], 0, 0.7, []⟩,
          ⟨"a", "meeting", [("v", "2")], 1, 0.7, []⟩]).context_history.length = 2 :=
  C5_idempotent_upsert (fun _ => Except.ok ([] : Embedding))
    (fun idx _ _ _ => Except.ok idx) ⟨[], [], []⟩
    ⟨"a", "meeting", [("v", "1")], 0, 0.7, []⟩
    ⟨"a", "meeting", [("v", "2")], 1, 0.7, []⟩ (by simp) rfl

/-- C6 (counterexample): an entity whose embedding fails is NOT discarded
from the Store's bookkeeping — `update_context` still puts it in the
active map (and appends it to the history), because `store_entity`
swallows the error and the loop body continues unconditionally; only the
vector index stays unchanged. -/
theorem C6_counterexample :
    hasKey (update_context (fun _ => Except.error "encoder failure")
        (fun idx _ _ _ => Except.ok idx) ⟨[], [], []⟩
        [⟨"x", "meeting", [], 0, 0.7, []⟩]).active_contexts "x" = true ∧
    (update_context (fun _ => Except.error "encoder failure")
        (fun idx _ _ _ => Except.ok idx) ⟨[], [], []⟩
        [⟨"x", "meeting", [], 0, 0.7, []⟩]).index = [] ∧
    (update_context (fun _ => Except.error "encoder failure")
        (fun idx _ _ _ => Except.ok idx) ⟨[], [], []⟩
        [⟨"x", "meeting", [], 0, 0.7, []⟩]).context_history.length = 1 := by
  refine ⟨?_, rfl, rfl⟩
  rfl

/-- C6 (amended): when the encoder OR the vector-index write fails for one
entity, that entity is skipped in the VECTOR INDEX only — the failure is
swallowed (`update_context` is total) and the sibling entity of the batch
is stored exactly as if the failing entity had never touched the index —
but the failing entity is still recorded in the active map and the
history. -/
theorem C6_batch_isolation (encode : String → Except String Embedding)
    (add : VectorIndex → String → Embedding → String → Except String VectorIndex)
    (s : ContextEngine) (e1 e2 : ContextEntity) (msg : String)
    (hfail : encode (entity_to_text e1) = Except.error msg ∨
      ∃ emb, encode (entity_to_text e1) = Except.ok emb ∧
        add s.index e1.id emb (entity_to_text e1) = Except.error msg) :
    (update_context encode add s [e1, e2]).index =
      store_entity encode add s.index e2 ∧
    (update_context encode add s [e1, e2]).context_history =
      s.context_history ++ [e1, e2] ∧
    hasKey (update_context encode add s [e1, e2]).active_contexts e1.id = true ∧
    hasKey (update_context encode add s [e1, e2]).active_contexts e2.id = true := by
  have hskip : store_entity encode add s.index e1 = s.index := by
    rcases hfail with h | ⟨emb, h1, h2⟩
    · simp [store_entity, h]
    · simp [store_entity, h1, h2]
  refine ⟨?_, update_context_history encode add s [e1, e2], ?_, ?_⟩
  · show store_entity encode add
      (store_entity encode add s.index e1) e2 = store_entity encode add s.index e2
    rw [hskip]
  · show hasKey (dictInsert (dictInsert s.active_contexts e1.id e1) e2.id e2) e1.id
      = true
    exact hasKey_dictInsert_of _ e2.id e1.id e2
      (hasKey_dictInsert_self s.active_contexts e1.id e1)
  · exact hasKey_dictInsert_self _ e2.id e2

/-- C6 (witness): two concrete two-entity batches, one whose first entity
fails at the encoder and one whose first entity fails at the index write,
both via `C6_batch_isolation`. -/
theorem C6_witness :
    ((update_context (fun _ => Except.error "emb")
        (fun idx i _ d => Except.ok (idx ++ [(i, d)])) ⟨[], [], []⟩
        [⟨"x", "meeting", [], 0, 0.7, []⟩, ⟨"y", "meeting", [], 1, 0.7, []⟩]).index =
      store_entity (fun _ => Except.error "emb")
        (fun idx i _ d => Except.ok (idx ++ [(i, d)])) []
        ⟨"y", "meeting", [], 1, 0.7, []⟩ ∧
    (update_context (fun _ => Except.error "emb")
        (fun idx i _ d => Except.ok (idx ++ [(i, d)])) ⟨[], [], []⟩
        [⟨"x", "meeting", [], 0, 0.7, []⟩,
          ⟨"y", "meeting", [], 1, 0.7, []⟩]).context_history =
      [⟨"x", "meeting", [], 0, 0.7, []⟩, ⟨"y", "meeting", [], 1, 0.7, []⟩] ∧
    hasKey (update_context (fun _ => Except.error "emb")
        (fun idx i _ d => Except.ok (idx ++ [(i, d)])) ⟨[], [], []⟩
        [⟨"x", "meeting", [], 0, 0.7, []⟩,
          ⟨"y", "meeting", [], 1, 0.7, []⟩]).active_contexts "x" = true ∧
    hasKey (update_context (fun _ => Except.error "emb")
        (fun idx i _ d => Except.ok (idx ++ [(i, d)])) ⟨[], [], []⟩
        [⟨"x", "meeting", [], 0, 0.7, []⟩,
          ⟨"y", "meeting", [], 1, 0.7, []⟩]).active_contexts "y" = true) ∧
    ((update_context (fun _ => Except.ok ([] : Embedding))
        (fun idx i _ d => if i == "x" then Except.error "index write"
          else Except.ok (idx ++ [(i, d)])) ⟨[], [], []⟩
        [⟨"x", "meeting", [], 0, 0.7, []⟩, ⟨"y", "meeting", [], 1, 0.7, []⟩]).index =
      store_entity (fun _ => Except.ok ([] : Embedding))
        (fun idx i _ d => if i == "x" then Except.error "index write"
          else Except.ok (idx ++ [(i, d)])) []
        ⟨"y", "meeting", [], 1, 0.7, []⟩ ∧
    (update_context (fun _ => Except.ok ([] : Embedding))
        (fun idx i _ d => if i == "x" then Except.error "index write"
          else Except.ok (idx ++ [(i, d)])) ⟨[], [], []⟩
        [⟨"x", "meeting", [], 0, 0.7, []⟩,
          ⟨"y", "meeting", [], 1, 0.7, []⟩]).context_history =
      [⟨"x", "meeting", [], 0, 0.7, []⟩, ⟨"y", "meeting", [], 1, 0.7, []⟩] ∧
    hasKey (update_context (fun _ => Except.ok ([] : Embedding))
        (fun idx i _ d => if i == "x" then Except.error "index write"
          else Except.ok (idx ++ [(i, d)])) ⟨[], [], []⟩
        [⟨"x", "meeting", [], 0, 0.7, []⟩,
          ⟨"y", "meeting", [], 1, 0.7, []⟩]).active_contexts "x" = true ∧
    hasKey (update_context (fun _ => Except.ok ([] : Embedding))
        (fun idx i _ d => if i == "x" then Except.error "index write"
          else Except.ok (idx ++ [(i, d)])) ⟨[], [], []⟩
        [⟨"x", "meeting", [], 0, 0.7, []⟩,
          ⟨"y", "meeting", [], 1, 0.7, []⟩]).active_contexts "y" = true) := by
  have h := C6_batch_isolation (fun _ => Except.error "emb")
    (fun idx i _ d => Except.ok (idx ++ [(i, d)])) ⟨[], [], []⟩
    ⟨"x", "meeting", [], 0, 0.7, []⟩ ⟨"y", "meeting", [], 1, 0.7, []⟩ "emb"
    (Or.inl rfl)
  have h' := C6_batch_isolation (fun _ => Except.ok ([] : Embedding))
    (fun idx i _ d => if i == "x" then Except.error "index write"
      else Except.ok (idx ++ [(i, d)])) ⟨[], [], []⟩
    ⟨"x", "meeting", [], 0, 0.7, []⟩ ⟨"y", "meeting", [], 1, 0.7, []⟩ "index write"
    (Or.inr ⟨[], rfl, rfl⟩)
  exact ⟨⟨h.1, by simpa using h.2.1, h.2.2.1, h.2.2.2⟩,
    ⟨h'.1, by simpa using h'.2.1, h'.2.2.1, h'.2.2.2⟩⟩

/-- C7 (counterexample): when the retrieval behind the meeting-prep
detector raises, `check_for_alerts` propagates the error to its caller —
no detector contributes any alert and the alert history is not extended —
contradicting the claimed per-detector isolation. -/
theorem C7_counterexample :
    Mgr.check_for_alertsE (Except.error "db down") 0 ⟨[]⟩ =
      Except.error "db down" := rfl

/-- C7 (amended): detector failures are NOT isolated: an error raised
while the meeting-prep detector retrieves context propagates out of
`check_for_alerts`, the remaining detectors contribute nothing for the
cycle, and the alert history is left unextended (no `ok` state is
produced). -/
theorem C7_detector_error_propagates (e : String) (now : Nat)
    (m : Mgr.AlertManager) :
    Mgr.check_for_alertsE (Except.error e) now m = Except.error e := rfl

/-- C8 (counterexample): in the LEARNED state a classifier failure is not
caught: `evaluate_alert` returns the error instead of the rule-based
decision (which would have been `deliver` here). -/
theorem C8_counterexample :
    Triage.evaluate_alert ⟨fun _ => true, fun _ => true, fun _ => true⟩
      (fun _ => Except.error "malformed feature vector") ⟨[], [], true⟩
      ⟨"a1", .meeting_reminder, .high, "", [], 0.8, []⟩ =
      Except.error "malformed feature vector" ∧
    Triage.rule_based_triage ⟨fun _ => true, fun _ => true, fun _ => true⟩
      ⟨"a1", .meeting_reminder, .high, "", [], 0.8, []⟩ = true :=
  ⟨rfl, rfl⟩

/-- C8 (amended): in the LEARNED state a classifier failure propagates out
of `evaluate_alert` as that same error — there is no fall-back to the
rule-based decision (the triage state itself is not touched: `evaluate_alert`
reads `is_trained` and mutates nothing). -/
theorem C8_classifier_error_propagates (P : Triage.TriagePredicates)
    (classify : List ℚ → Except String Nat) (t : Triage.AlertTriage)
    (a : Triage.Alert) (msg : String) (ht : t.is_trained = true)
    (hc : classify (Triage.extract_features a) = Except.error msg) :
    Triage.evaluate_alert P classify t a = Except.error msg := by
  simp [Triage.evaluate_alert, ht, hc, Except.map]

/-- C8 (witness): a concrete trained state with a failing classifier, via
`C8_classifier_error_propagates`. -/
theorem C8_witness :
    Triage.evaluate_alert ⟨fun _ => false, fun _ => false, fun _ => false⟩
      (fun _ => Except.error "boom") ⟨[], [], true⟩
      ⟨"a3", .health_advice, .low, "", [], 0.8, []⟩ = Except.error "boom" :=
  C8_classifier_error_propagates ⟨fun _ => false, fun _ => false, fun _ => false⟩
    (fun _ => Except.error "boom") ⟨[], [], true⟩
    ⟨"a3", .health_advice, .low, "", [], 0.8, []⟩ "boom" rfl rfl

/-- C9: `_calculate_meeting_importance` stays in [0, 1] for every input
event, pathological ones included (the base 0.5 plus bounded increments is
clamped by `min(·, 1.0)`); every alert the generation pass produces carries
the default confidence 0.8, which lies in [0, 1], and the `Alert`
dataclass default itself is 0.8. -/
theorem C9_importance_confidence_bounds :
    (∀ event : CalendarEvent,
      0 ≤ calculate_meeting_importance event ∧
        calculate_meeting_importance event ≤ 1) ∧
    (∀ (items : List Mgr.RetrievedItem) (now : Nat) (a : Mgr.Alert),
      a ∈ Mgr.check_meeting_alerts items now ++ Mgr.check_schedule_conflicts now
          ++ Mgr.check_follow_ups now →
        a.confidence = 0.8 ∧ 0 ≤ a.confidence ∧ a.confidence ≤ 1) ∧
    ({ id := "x", type := .health, priority := .low, title := "", message := "",
        context := [], timestamp := 0,
        suggested_actions := [] : Mgr.Alert }).confidence = 0.8 := by
  refine ⟨?_, ?_, rfl⟩
  · intro event
    simp only [calculate_meeting_importance]
    refine ⟨le_min ?_ (by norm_num), min_le_right _ _⟩
    split_ifs <;> norm_num
  · intro items now a ha
    have hconf : a.confidence = 0.8 := by
      rcases List.mem_append.mp ha with hm | hm
      · rcases List.mem_append.mp hm with hm | hm
        · exact (Mgr.check_meeting_alerts_mem items now a hm).2
        · simp only [Mgr.check_schedule_conflicts, List.mem_singleton] at hm
          subst hm
          rfl
      · simp only [Mgr.check_follow_ups, List.mem_singleton] at hm
        subst hm
        rfl
    exact ⟨hconf, by rw [hconf]; norm_num, by rw [hconf]; norm_num⟩

/-- C9 (witness): the pathological event with 0 attendees and empty title,
and the conflict alert's confidence, via `C9_importance_confidence_bounds`. -/
theorem C9_witness :
    (0 ≤ calculate_meeting_importance ⟨0, "", false⟩ ∧
      calculate_meeting_importance ⟨0, "", false⟩ ≤ 1) ∧
    ((Mgr.conflict_alert 0).confidence = 0.8 ∧ 0 ≤ (Mgr.conflict_alert 0).confidence ∧
      (Mgr.conflict_alert 0).confidence ≤ 1) :=
  ⟨C9_importance_confidence_bounds.1 ⟨0, "", false⟩,
    C9_importance_confidence_bounds.2.1 [] 0 (Mgr.conflict_alert 0)
      (by simp [Mgr.check_meeting_alerts, Mgr.check_meeting_alerts_go,
        Mgr.check_schedule_conflicts, Mgr.check_follow_ups])⟩

/-- C10: on every invocation, whatever the retrieval returns (the empty
store included), `check_for_alerts` produces exactly one SCHEDULE_CONFLICT
alert — the hard-coded `conflict_1` at HIGH priority — and exactly one
FOLLOW_UP alert — the hard-coded `followup_1` at LOW priority — and
appends everything to the alert history. -/
theorem C10_unconditional_sample_alerts (items : List Mgr.RetrievedItem)
    (now : Nat) (m : Mgr.AlertManager) :
    Mgr.check_for_alertsE (Except.ok items) now m =
      Except.ok (Mgr.check_meeting_alerts items now
          ++ Mgr.check_schedule_conflicts now ++ Mgr.check_follow_ups now,
        ⟨m.alert_history ++ (Mgr.check_meeting_alerts items now
          ++ Mgr.check_schedule_conflicts now ++ Mgr.check_follow_ups now)⟩) ∧
    ((Mgr.check_meeting_alerts items now ++ Mgr.check_schedule_conflicts now
        ++ Mgr.check_follow_ups now).filter
      (fun a => a.type == Mgr.AlertType.schedule_conflict))
      = [Mgr.conflict_alert now] ∧
    ((Mgr.check_meeting_alerts items now ++ Mgr.check_schedule_conflicts now
        ++ Mgr.check_follow_ups now).filter
      (fun a => a.type == Mgr.AlertType.follow_up)) = [Mgr.followup_alert now] ∧
    (Mgr.conflict_alert now).id = "conflict_1" ∧
    (Mgr.conflict_alert now).priority = Mgr.AlertPriority.high ∧
    (Mgr.followup_alert now).id = "followup_1" ∧
    (Mgr.followup_alert now).priority = Mgr.AlertPriority.low := by
  refine ⟨rfl, ?_, ?_, rfl, rfl, rfl, rfl⟩
  · rw [List.filter_append, List.filter_append,
      Mgr.check_meeting_alerts_filter_conflict]
    simp [Mgr.check_schedule_conflicts, Mgr.check_follow_ups, Mgr.conflict_alert,
      Mgr.followup_alert]
  · rw [List.filter_append, List.filter_append,
      Mgr.check_meeting_alerts_filter_followup]
    simp [Mgr.check_schedule_conflicts, Mgr.check_follow_ups, Mgr.conflict_alert,
      Mgr.followup_alert]

end McpAgent
